import Mathlib

/-!
Verification of the UAV dashboard (src/app.py) against its design spec.

The script fetches two JSON snapshots (before/after server-side collision
avoidance), projects each record into a flat row via to_df, and renders
charts, a map and metrics.  We embed the data model and the observable
pipeline shallowly:

* Numbers are modelled as rationals, identifiers as naturals, statuses as
  strings.
* A Python dict that may lack keys is modelled with Option fields; reading
  a missing key is a KeyError, modelled with Except.
* np.nan, the sentinel the script stores for a missing prediction, is the
  distinguished Cell.nan value of an explicit cell type.
* The predicted field of a record may be absent, JSON null, or an object;
  the object is kept as an association list so that truthiness of
  u.get and the presence of individual coordinate keys both appear.
-/

/-- A table cell holding either a numeric value or the np.nan marker. -/
inductive Cell where
  | val (q : Rat)
  | nan
deriving DecidableEq, Repr

/-- The value found under the predicted key of a record: the key may be
absent, hold JSON null, or hold an object (an association list of
coordinate keys to numbers). -/
inductive PredField where
  | absent
  | null
  | dict (kvs : List (String × Rat))
deriving DecidableEq, Repr

/-- One raw UAV record as decoded from JSON.  Required keys are Option
because the remote document may omit them; reading an absent key raises
KeyError in the script. -/
structure RawUAV where
  uav_id : Option Nat
  x : Option Rat
  y : Option Rat
  status : Option String
  min_distance_km : Option Rat
  predicted : PredField
deriving DecidableEq, Repr

/-- One decoded JSON response body; uavs is None when the key is missing. -/
structure Response where
  uavs : Option (List RawUAV)
deriving DecidableEq, Repr

/-- One projected row of the dataframe built by to_df. -/
structure Row where
  UAV_ID : Nat
  X : Rat
  Y : Rat
  Status : String
  dmin : Rat
  PredX : Cell
  PredY : Cell
deriving DecidableEq, Repr

/-- The exception a cycle can die on after the fetch succeeded: a KeyError
from subscripting a dict that lacks the key. -/
inductive DFError where
  | keyError (k : String)
deriving DecidableEq, Repr

/-- Subscripting a dict field: u[k] raises KeyError k when the key is
absent. -/
def getKey {α : Type} (o : Option α) (k : String) : Except DFError α :=
  match o with
  | some v => Except.ok v
  | none => Except.error (DFError.keyError k)

/-- Truthiness of u.get applied to the predicted key: None (absent key or
JSON null) and an empty dict are falsy; a non-empty dict is truthy. -/
def predTruthy : PredField → Bool
  | PredField.dict kvs => !kvs.isEmpty
  | _ => false

/-- Embeds the conditional expression of lines 69-70 of src/app.py:
u.predicted[k] if u.get applied to predicted is truthy, else np.nan. -/
def projPred (p : PredField) (k : String) : Except DFError Cell :=
  if predTruthy p then
    match p with
    | PredField.dict kvs =>
        match kvs.lookup k with
        | some q => Except.ok (Cell.val q)
        | none => Except.error (DFError.keyError k)
    | _ => Except.error (DFError.keyError "predicted")
  else
    Except.ok Cell.nan

/-- The row built for one record at lines 63-71 of src/app.py, with the
keys read in source order. -/
def rowOf (u : RawUAV) : Except DFError Row := do
  let i ← getKey u.uav_id "uav_id"
  let x ← getKey u.x "x"
  let y ← getKey u.y "y"
  let s ← getKey u.status "status"
  let d ← getKey u.min_distance_km "min_distance_km"
  let px ← projPred u.predicted "x"
  let py ← projPred u.predicted "y"
  Except.ok { UAV_ID := i, X := x, Y := y, Status := s, dmin := d,
              PredX := px, PredY := py }

/-- The loop body of to_df: rows are appended in input order, and the first
raised KeyError aborts the whole projection. -/
def mapRows : List RawUAV → Except DFError (List Row)
  | [] => Except.ok []
  | u :: us => do
      let r ← rowOf u
      let rs ← mapRows us
      Except.ok (r :: rs)

/-- to_df of src/app.py lines 60-72: subscript the uavs key, then project
every record in order. -/
def to_df (data : Response) : Except DFError (List Row) := do
  let us ← getKey data.uavs "uavs"
  mapRows us

/-- The observable result of one HTTP GET issued by fetch_data: either the
requests call raises (network error or timeout), or a response arrives with
a status code and a body that may or may not parse as JSON. -/
inductive HttpResult where
  | exn
  | response (status : Nat) (body : Option Response)
deriving DecidableEq, Repr

/-- The exception kinds fetch_data can raise, all caught by the bare
except around its call site. -/
inductive FetchError where
  | requestException
  | jsonDecodeError
deriving DecidableEq, Repr

/-- requests.get followed by .json at lines 47-48: a raised requests
exception propagates, a non-JSON body raises a decode error, and the HTTP
status code is never inspected. -/
def getJson : HttpResult → Except FetchError Response
  | HttpResult.exn => Except.error FetchError.requestException
  | HttpResult.response _ none => Except.error FetchError.jsonDecodeError
  | HttpResult.response _ (some r) => Except.ok r

/-- fetch_data of src/app.py lines 46-49: the before request, then the
after request; the first raised exception aborts the pair. -/
def fetch_data (hb ha : HttpResult) : Except FetchError (Response × Response) := do
  let b ← getJson hb
  let a ← getJson ha
  Except.ok (b, a)

/-- Line 80 of src/app.py: the number of after-snapshot rows whose Status
equals collision. -/
def collision_count (df : List Row) : Nat :=
  df.countP (fun r => r.Status == "collision")

/-- Line 81: the collision alert is shown exactly when collision_count is
positive. -/
def collisionFlag (df : List Row) : Bool :=
  decide (0 < collision_count df)

/-- The colors dict of lines 89-94, in insertion order. -/
def colors : List (String × String) :=
  [("safe", "blue"), ("outer_near", "gold"),
   ("inner_near", "orange"), ("collision", "red")]

/-- Line 142: the bar labels are the keys of colors, in order. -/
def labels : List String := colors.map Prod.fst

/-- Lines 145 and 151: one bar per label, counting the rows of that
status. -/
def statusDist (df : List Row) : List Nat :=
  labels.map (fun s => df.countP (fun r => r.Status == s))

/-- The arithmetic mean used by pandas at line 204; the mean of an empty
column is NaN, modelled as none. -/
def mean (l : List Rat) : Option Rat :=
  if l.length = 0 then none else some (l.sum / (l.length : Rat))

/-- Line 204 of src/app.py: the map center is the mean latitude (column Y)
and mean longitude (column X) of the after dataframe. -/
def mapCenter (df : List Row) : Option Rat × Option Rat :=
  (mean (df.map Row.Y), mean (df.map Row.X))

/-- The chart-bearing data of one successfully rendered page: the alert
flag and collision count, the two status-distribution bar series, the map
center and the total-UAV metric. -/
structure Rendered where
  alert : Bool
  collisions : Nat
  dist_before : List Nat
  dist_after : List Nat
  center : Option Rat × Option Rat
  totalUAVs : Nat
deriving DecidableEq, Repr

/-- How one script run ends: the caught fetch failure (st.error plus
st.stop at lines 53-55, before any chart exists), an uncaught KeyError
from to_df (lines 74-75, which replaces the page with a traceback before
any chart exists), or a fully rendered page. -/
inductive Outcome where
  | fetchErrorState (e : FetchError)
  | crashed (e : DFError)
  | rendered (r : Rendered)
deriving DecidableEq, Repr

/-- One top-to-bottom execution of src/app.py on the two HTTP results of
its two GETs: fetch, project before then after, then render. -/
def cycle (hb ha : HttpResult) : Outcome :=
  match fetch_data hb ha with
  | Except.error e => Outcome.fetchErrorState e
  | Except.ok (b, a) =>
      match to_df b with
      | Except.error e => Outcome.crashed e
      | Except.ok dfB =>
          match to_df a with
          | Except.error e => Outcome.crashed e
          | Except.ok dfA =>
              Outcome.rendered
                { alert := collisionFlag dfA,
                  collisions := collision_count dfA,
                  dist_before := statusDist dfB,
                  dist_after := statusDist dfA,
                  center := mapCenter dfA,
                  totalUAVs := dfA.length }

/-- The refresh loop: each tick runs one cycle on exactly the pair of HTTP
results of that tick, with no in-cycle retry. -/
def run : List (HttpResult × HttpResult) → List Outcome
  | [] => []
  | p :: ps => cycle p.1 p.2 :: run ps

/-- Modelled from the spec: the per-matching-id delta minimum-distance
metric of section 4.3, which no chart of src/app.py computes (the file
only shows per-snapshot averages).  For each id present in both
snapshots the delta is dmin after minus dmin before; ids present in only
one snapshot are excluded, with no interpolation and no default. -/
def deltaDmin (before after : List Row) : List (Nat × Rat) :=
  after.filterMap (fun ra =>
    match before.find? (fun rb => rb.UAV_ID == ra.UAV_ID) with
    | some rb => some (ra.UAV_ID, ra.dmin - rb.dmin)
    | none => none)

/-- All five required record keys are present. -/
def ReqOk (u : RawUAV) : Prop :=
  u.uav_id.isSome = true ∧ u.x.isSome = true ∧ u.y.isSome = true ∧
  u.status.isSome = true ∧ u.min_distance_km.isSome = true

/-- The predicted key, when it holds a non-empty object, carries both
coordinate keys, as the data contract of spec section 6 requires. -/
def PredOk (u : RawUAV) : Prop :=
  match u.predicted with
  | PredField.dict kvs =>
      kvs = [] ∨ ((kvs.lookup "x").isSome = true ∧ (kvs.lookup "y").isSome = true)
  | _ => True

/-- The five copied required fields of a row agree with the record the row
was projected from. -/
def Matches (u : RawUAV) (row : Row) : Prop :=
  u.uav_id = some row.UAV_ID ∧ u.x = some row.X ∧ u.y = some row.Y ∧
  u.status = some row.Status ∧ u.min_distance_km = some row.dmin

instance {ε α : Type} [DecidableEq ε] [DecidableEq α] : DecidableEq (Except ε α) :=
  fun a b =>
    match a, b with
    | Except.ok x, Except.ok y =>
        if h : x = y then isTrue (by rw [h])
        else isFalse (by intro hc; cases hc; exact h rfl)
    | Except.error x, Except.error y =>
        if h : x = y then isTrue (by rw [h])
        else isFalse (by intro hc; cases hc; exact h rfl)
    | Except.ok _, Except.error _ => isFalse (by intro hc; cases hc)
    | Except.error _, Except.ok _ => isFalse (by intro hc; cases hc)

theorem ok_bind {ε α β : Type} (a : α) (f : α → Except ε β) :
    (Except.ok a >>= f) = f a := rfl

theorem error_bind {ε α β : Type} (e : ε) (f : α → Except ε β) :
    (Except.error e >>= f : Except ε β) = Except.error e := rfl

theorem rowOf_ok_of_wf (u : RawUAV) (hreq : ReqOk u) (hpred : PredOk u) :
    ∃ row : Row, rowOf u = Except.ok row ∧ Matches u row := by
  obtain ⟨h1, h2, h3, h4, h5⟩ := hreq
  rw [Option.isSome_iff_exists] at h1 h2 h3 h4 h5
  obtain ⟨i, h1⟩ := h1
  obtain ⟨x, h2⟩ := h2
  obtain ⟨y, h3⟩ := h3
  obtain ⟨s, h4⟩ := h4
  obtain ⟨d, h5⟩ := h5
  have hpx : ∃ cx, projPred u.predicted "x" = Except.ok cx := by
    unfold PredOk at hpred
    cases hp : u.predicted with
    | absent => exact ⟨Cell.nan, by simp [projPred, predTruthy]⟩
    | null => exact ⟨Cell.nan, by simp [projPred, predTruthy]⟩
    | dict kvs =>
        rw [hp] at hpred
        rcases hpred with he | ⟨hx, _⟩
        · subst he
          exact ⟨Cell.nan, by simp [projPred, predTruthy]⟩
        · rw [Option.isSome_iff_exists] at hx
          obtain ⟨qx, hx⟩ := hx
          cases kvs with
          | nil => simp at hx
          | cons p t => exact ⟨Cell.val qx, by simp [projPred, predTruthy, hx]⟩
  have hpy : ∃ cy, projPred u.predicted "y" = Except.ok cy := by
    unfold PredOk at hpred
    cases hp : u.predicted with
    | absent => exact ⟨Cell.nan, by simp [projPred, predTruthy]⟩
    | null => exact ⟨Cell.nan, by simp [projPred, predTruthy]⟩
    | dict kvs =>
        rw [hp] at hpred
        rcases hpred with he | ⟨_, hy⟩
        · subst he
          exact ⟨Cell.nan, by simp [projPred, predTruthy]⟩
        · rw [Option.isSome_iff_exists] at hy
          obtain ⟨qy, hy⟩ := hy
          cases kvs with
          | nil => simp at hy
          | cons p t => exact ⟨Cell.val qy, by simp [projPred, predTruthy, hy]⟩
  obtain ⟨cx, hpx⟩ := hpx
  obtain ⟨cy, hpy⟩ := hpy
  refine ⟨⟨i, x, y, s, d, cx, cy⟩, ?_, h1, h2, h3, h4, h5⟩
  simp [rowOf, getKey, h1, h2, h3, h4, h5, hpx, hpy, ok_bind]

theorem mapRows_wf : ∀ us : List RawUAV, (∀ u ∈ us, ReqOk u ∧ PredOk u) →
    ∃ rows : List Row, mapRows us = Except.ok rows ∧ rows.length = us.length ∧
      ∀ (i : Nat) (hi : i < us.length) (hi2 : i < rows.length),
        Matches (us.get ⟨i, hi⟩) (rows.get ⟨i, hi2⟩) := by
  intro us
  induction us with
  | nil =>
      intro _
      exact ⟨[], rfl, rfl, by intro i hi hi2; exact absurd hi (by simp)⟩
  | cons u us ih =>
      intro h
      obtain ⟨hr, hp⟩ := h u (List.mem_cons_self u us)
      obtain ⟨row, hrow, hm⟩ := rowOf_ok_of_wf u hr hp
      obtain ⟨rows, hrows, hlen, hpt⟩ :=
        ih (fun v hv => h v (List.mem_cons_of_mem u hv))
      refine ⟨row :: rows, ?_, by simp [hlen], ?_⟩
      · simp [mapRows, hrow, hrows, ok_bind]
      · intro i hi hi2
        cases i with
        | zero => simpa using hm
        | succ n =>
            simpa using hpt n (by simpa using hi) (by simpa using hi2)

theorem rowOf_ok_req (u : RawUAV) (row : Row) (h : rowOf u = Except.ok row) :
    ReqOk u := by
  cases h1 : u.uav_id <;> cases h2 : u.x <;> cases h3 : u.y <;>
    cases h4 : u.status <;> cases h5 : u.min_distance_km <;>
    simp only [rowOf, getKey, h1, h2, h3, h4, h5, ok_bind, error_bind] at h <;>
    simp [ReqOk, h1, h2, h3, h4, h5] <;>
    cases h

theorem mapRows_ok_mem : ∀ (us : List RawUAV) (rows : List Row),
    mapRows us = Except.ok rows → ∀ u ∈ us, ∃ row, rowOf u = Except.ok row := by
  intro us
  induction us with
  | nil => intro rows _ u hu; cases hu
  | cons v us ih =>
      intro rows h u hu
      cases hv : rowOf v with
      | error e => rw [mapRows, hv, error_bind] at h; cases h
      | ok rv =>
          cases hus : mapRows us with
          | error e => rw [mapRows, hv, ok_bind, hus, error_bind] at h; cases h
          | ok rs =>
              rcases List.mem_cons.mp hu with he | hm
              · exact he ▸ ⟨rv, hv⟩
              · exact ih rs hus u hm

/-- C1 counterexample: a record that carries every required key (so the
response is well-formed in the sense of the claim) but whose predicted
object is non-empty and lacks the x key makes to_df raise KeyError, so
the projection yields an error instead of one row per record. -/
theorem C1_counterexample :
    ReqOk ⟨some 7, some 1, some 2, some "safe", some 3,
           PredField.dict [("z", 1)]⟩ ∧
    to_df ⟨some [⟨some 7, some 1, some 2, some "safe", some 3,
                  PredField.dict [("z", 1)]⟩]⟩
      = Except.error (DFError.keyError "x") :=
  ⟨⟨rfl, rfl, rfl, rfl, rfl⟩, rfl⟩

/-- C1 (amended): for a response whose uavs key is present and whose
records carry every required key, and whose predicted field, when it is a
non-empty object, carries both coordinate keys, to_df produces exactly one
row per record, in input order, the i-th row copying the i-th record's
uav_id, x, y, status and min_distance_km; being a function, the projection
is pure. -/
theorem to_df_wellformed (resp : Response) (us : List RawUAV)
    (hu : resp.uavs = some us) (hwf : ∀ u ∈ us, ReqOk u ∧ PredOk u) :
    ∃ rows : List Row, to_df resp = Except.ok rows ∧ rows.length = us.length ∧
      ∀ (i : Nat) (hi : i < us.length) (hi2 : i < rows.length),
        Matches (us.get ⟨i, hi⟩) (rows.get ⟨i, hi2⟩) := by
  obtain ⟨rows, hrows, hlen, hpt⟩ := mapRows_wf us hwf
  exact ⟨rows, by simp [to_df, getKey, hu, ok_bind, hrows], hlen, hpt⟩

/-- Witness for the amended C1 at a one-record response. -/
theorem to_df_wellformed_witness :
    ∃ rows : List Row,
      to_df ⟨some [⟨some 7, some 1, some 2, some "safe", some 3,
                    PredField.absent⟩]⟩ = Except.ok rows ∧
      rows.length = 1 := by
  obtain ⟨rows, h1, h2, _⟩ := to_df_wellformed
    ⟨some [⟨some 7, some 1, some 2, some "safe", some 3, PredField.absent⟩]⟩
    [⟨some 7, some 1, some 2, some "safe", some 3, PredField.absent⟩] rfl
    (by
      intro u hu
      rcases List.mem_singleton.mp hu with rfl
      exact ⟨⟨rfl, rfl, rfl, rfl, rfl⟩, trivial⟩)
  exact ⟨rows, h1, h2⟩

/-- C2: a response without the uavs key makes to_df raise KeyError uavs; a
record missing any required key makes to_df raise (no default is
substituted); and when either projection raises after a successful fetch,
the cycle ends crashed, an outcome that carries no chart data. -/
theorem missing_keys_abort :
    (∀ r : Response, r.uavs = none →
        to_df r = Except.error (DFError.keyError "uavs")) ∧
    (∀ (r : Response) (us : List RawUAV) (u : RawUAV),
        r.uavs = some us → u ∈ us →
        (u.uav_id = none ∨ u.x = none ∨ u.y = none ∨ u.status = none ∨
         u.min_distance_km = none) →
        ∃ e, to_df r = Except.error e) ∧
    (∀ (hb ha : HttpResult) (b a : Response),
        getJson hb = Except.ok b → getJson ha = Except.ok a →
        ((∃ e, to_df b = Except.error e) ∨ (∃ e, to_df a = Except.error e)) →
        ∃ e, cycle hb ha = Outcome.crashed e) := by
  refine ⟨?_, ?_, ?_⟩
  · intro r h
    simp [to_df, getKey, h, error_bind]
  · intro r us u hu hm hmiss
    cases hdf : to_df r with
    | error e => exact ⟨e, rfl⟩
    | ok rows =>
        exfalso
        rw [to_df] at hdf
        rw [hu] at hdf
        simp only [getKey, ok_bind] at hdf
        obtain ⟨row, hrow⟩ := mapRows_ok_mem us rows hdf u hm
        obtain ⟨h1, h2, h3, h4, h5⟩ := rowOf_ok_req u row hrow
        rcases hmiss with h | h | h | h | h <;> simp [h] at h1 h2 h3 h4 h5
  · intro hb ha b a hgb hga hor
    have hf : fetch_data hb ha = Except.ok (b, a) := by
      simp [fetch_data, hgb, hga, ok_bind]
    rcases hor with ⟨e, he⟩ | ⟨e, he⟩
    · exact ⟨e, by simp [cycle, hf, he]⟩
    · cases hdb : to_df b with
      | error e2 => exact ⟨e2, by simp [cycle, hf, hdb]⟩
      | ok dfB => exact ⟨e, by simp [cycle, hf, hdb, he]⟩

/-- Witness for C2 at a response without uavs, a record without uav_id,
and the cycle on the first of these. -/
theorem missing_keys_abort_witness :
    to_df ⟨none⟩ = Except.error (DFError.keyError "uavs") ∧
    (∃ e, to_df ⟨some [⟨none, some 1, some 2, some "safe", some 3,
                        PredField.absent⟩]⟩ = Except.error e) ∧
    (∃ e, cycle (HttpResult.response 200 (some ⟨none⟩))
                (HttpResult.response 200 (some ⟨none⟩))
        = Outcome.crashed e) := by
  refine ⟨missing_keys_abort.1 ⟨none⟩ rfl, ?_, ?_⟩
  · exact missing_keys_abort.2.1 _ _ _ rfl (List.mem_singleton.mpr rfl)
      (Or.inl rfl)
  · exact missing_keys_abort.2.2 _ _ ⟨none⟩ ⟨none⟩ rfl rfl
      (Or.inl ⟨DFError.keyError "uavs", rfl⟩)

/-- C3: a record with every required key and the predicted key absent
projects, without raising, to a row whose PredX and PredY are the
distinguished nan marker, which differs from the numeric value 0; the
structure Row always carries both fields, so they are never omitted. -/
theorem predicted_absent_nan (u : RawUAV) (i : Nat) (x y d : Rat) (s : String)
    (h1 : u.uav_id = some i) (h2 : u.x = some x) (h3 : u.y = some y)
    (h4 : u.status = some s) (h5 : u.min_distance_km = some d)
    (hp : u.predicted = PredField.absent) :
    rowOf u = Except.ok ⟨i, x, y, s, d, Cell.nan, Cell.nan⟩ ∧
    Cell.nan ≠ Cell.val 0 := by
  constructor
  · simp [rowOf, getKey, h1, h2, h3, h4, h5, projPred, predTruthy, hp, ok_bind]
  · intro hc
    cases hc

/-- Witness for C3 at a concrete record with predicted absent. -/
theorem predicted_absent_nan_witness :
    rowOf ⟨some 7, some 1, some 2, some "safe", some 3, PredField.absent⟩
      = Except.ok ⟨7, 1, 2, "safe", 3, Cell.nan, Cell.nan⟩ ∧
    Cell.nan ≠ Cell.val 0 :=
  predicted_absent_nan _ 7 1 2 3 "safe" rfl rfl rfl rfl rfl rfl

/-- C10: a record whose predicted key holds JSON null or an empty object
projects exactly as if the key were absent, and any row it yields carries
the nan marker in both predicted fields, with no error raised. -/
theorem predicted_falsy_like_absent (u : RawUAV)
    (hp : u.predicted = PredField.null ∨ u.predicted = PredField.dict []) :
    rowOf u = rowOf { u with predicted := PredField.absent } ∧
    ∀ row : Row, rowOf u = Except.ok row →
      row.PredX = Cell.nan ∧ row.PredY = Cell.nan := by
  have heq : rowOf u = rowOf { u with predicted := PredField.absent } := by
    rcases hp with hp | hp <;> simp [rowOf, projPred, predTruthy, hp]
  refine ⟨heq, ?_⟩
  intro row hrow
  rw [heq] at hrow
  cases h1 : u.uav_id <;> cases h2 : u.x <;> cases h3 : u.y <;>
    cases h4 : u.status <;> cases h5 : u.min_distance_km <;>
    simp [rowOf, getKey, h1, h2, h3, h4, h5, projPred, predTruthy,
          ok_bind, error_bind] at hrow
  subst hrow
  exact ⟨rfl, rfl⟩

/-- Witness for C10 at a concrete record with predicted null. -/
theorem predicted_falsy_like_absent_witness :
    rowOf (⟨some 7, some 1, some 2, some "safe", some 3,
            PredField.null⟩ : RawUAV)
      = rowOf ⟨some 7, some 1, some 2, some "safe", some 3,
               PredField.absent⟩ ∧
    ((⟨7, 1, 2, "safe", 3, Cell.nan, Cell.nan⟩ : Row).PredX = Cell.nan ∧
     (⟨7, 1, 2, "safe", 3, Cell.nan, Cell.nan⟩ : Row).PredY = Cell.nan) :=
  ⟨(predicted_falsy_like_absent _ (Or.inl rfl)).1,
   (predicted_falsy_like_absent
      (⟨some 7, some 1, some 2, some "safe", some 3, PredField.null⟩ : RawUAV)
      (Or.inl rfl)).2 _ rfl⟩

theorem rowOf_ok_pred (u : RawUAV) (row : Row) (h : rowOf u = Except.ok row) :
    ∃ cx cy, projPred u.predicted "x" = Except.ok cx ∧
      projPred u.predicted "y" = Except.ok cy ∧
      row.PredX = cx ∧ row.PredY = cy := by
  cases h1 : u.uav_id <;> cases h2 : u.x <;> cases h3 : u.y <;>
    cases h4 : u.status <;> cases h5 : u.min_distance_km <;>
    simp only [rowOf, getKey, h1, h2, h3, h4, h5, ok_bind, error_bind] at h <;>
    try cases h
  cases hx : projPred u.predicted "x" with
  | error e => rw [hx, error_bind] at h; cases h
  | ok cx =>
      cases hy : projPred u.predicted "y" with
      | error e => rw [hx, ok_bind, hy, error_bind] at h; cases h
      | ok cy =>
          rw [hx, ok_bind, hy, ok_bind] at h
          injection h with h
          subst h
          exact ⟨cx, cy, rfl, rfl, rfl, rfl⟩

/-- C9: a record whose predicted key holds a non-empty object lacking the
x or the y key makes the projection raise; moreover no successfully
projected row ever has exactly one of PredX, PredY equal to the nan
marker. -/
theorem predicted_partial_errors :
    (∀ (u : RawUAV) (kvs : List (String × Rat)),
        u.predicted = PredField.dict kvs → kvs ≠ [] →
        (kvs.lookup "x" = none ∨ kvs.lookup "y" = none) →
        ∃ e, rowOf u = Except.error e) ∧
    (∀ (u : RawUAV) (row : Row), rowOf u = Except.ok row →
        (row.PredX = Cell.nan ↔ row.PredY = Cell.nan)) := by
  constructor
  · intro u kvs hp hne hmiss
    cases hr : rowOf u with
    | error e => exact ⟨e, rfl⟩
    | ok row =>
        exfalso
        obtain ⟨cx, cy, hx, hy, _, _⟩ := rowOf_ok_pred u row hr
        have hemp : kvs.isEmpty = false := by
          cases kvs with
          | nil => exact absurd rfl hne
          | cons p t => rfl
        rcases hmiss with hm | hm
        · rw [hp] at hx
          simp [projPred, predTruthy, hemp, hm] at hx
        · rw [hp] at hy
          simp [projPred, predTruthy, hemp, hm] at hy
  · intro u row h
    obtain ⟨cx, cy, hx, hy, hpx, hpy⟩ := rowOf_ok_pred u row h
    cases hp : u.predicted with
    | absent =>
        rw [hp] at hx hy
        simp [projPred, predTruthy] at hx hy
        rw [hpx, hpy, ← hx, ← hy]
    | null =>
        rw [hp] at hx hy
        simp [projPred, predTruthy] at hx hy
        rw [hpx, hpy, ← hx, ← hy]
    | dict kvs =>
        cases kvs with
        | nil =>
            rw [hp] at hx hy
            simp [projPred, predTruthy] at hx hy
            rw [hpx, hpy, ← hx, ← hy]
        | cons p t =>
            rw [hp] at hx hy
            cases hlx : (p :: t).lookup "x" with
            | none => simp [projPred, predTruthy, hlx] at hx
            | some qx =>
                cases hly : (p :: t).lookup "y" with
                | none => simp [projPred, predTruthy, hly] at hy
                | some qy =>
                    simp [projPred, predTruthy, hlx] at hx
                    simp [projPred, predTruthy, hly] at hy
                    rw [hpx, hpy, ← hx, ← hy]
                    simp

/-- Witness for C9 at a predicted object carrying only x, and at a fully
predicted row. -/
theorem predicted_partial_errors_witness :
    (∃ e, rowOf ⟨some 7, some 1, some 2, some "safe", some 3,
                 PredField.dict [("x", 1)]⟩ = Except.error e) ∧
    ((⟨2, 2, 3, "collision", 4, Cell.val 5, Cell.val 6⟩ : Row).PredX
        = Cell.nan ↔
     (⟨2, 2, 3, "collision", 4, Cell.val 5, Cell.val 6⟩ : Row).PredY
        = Cell.nan) :=
  ⟨predicted_partial_errors.1 _ [("x", 1)] rfl (by simp) (Or.inr rfl),
   predicted_partial_errors.2
     ⟨some 2, some 2, some 3, some "collision", some 4,
      PredField.dict [("x", 5), ("y", 6)]⟩ _ rfl⟩

/-- C4: the collision alert is shown iff the count of after-snapshot rows
with Status collision is positive, and in any rendered cycle the alert is
that function of the after dataframe alone, whatever the before response
was. -/
theorem collision_flag_correct (dfA : List Row) :
    (collisionFlag dfA = true ↔ 0 < collision_count dfA) ∧
    (∀ (hb ha : HttpResult) (b a : Response) (o : Rendered),
        fetch_data hb ha = Except.ok (b, a) → to_df a = Except.ok dfA →
        cycle hb ha = Outcome.rendered o → o.alert = collisionFlag dfA) := by
  constructor
  · simp [collisionFlag]
  · intro hb ha b a o hf hda hc
    cases hdb : to_df b with
    | error e =>
        simp [cycle, hf, hdb] at hc
    | ok dfB =>
        simp [cycle, hf, hdb, hda] at hc
        rw [← hc]

/-- Witness for C4 at a two-row after snapshot with one collision. -/
theorem collision_flag_correct_witness :
    (collisionFlag [⟨1, 0, 0, "safe", 1, Cell.nan, Cell.nan⟩,
                    ⟨2, 0, 0, "collision", 0, Cell.nan, Cell.nan⟩] = true ↔
     0 < collision_count [⟨1, 0, 0, "safe", 1, Cell.nan, Cell.nan⟩,
                          ⟨2, 0, 0, "collision", 0, Cell.nan, Cell.nan⟩]) ∧
    (∃ o : Rendered,
      cycle (HttpResult.response 200 (some ⟨some
        [⟨some 1, some 0, some 0, some "safe", some 1, PredField.absent⟩,
         ⟨some 2, some 0, some 0, some "collision", some 0,
          PredField.absent⟩]⟩))
            (HttpResult.response 200 (some ⟨some
        [⟨some 1, some 0, some 0, some "safe", some 1, PredField.absent⟩,
         ⟨some 2, some 0, some 0, some "collision", some 0,
          PredField.absent⟩]⟩))
        = Outcome.rendered o ∧
      o.alert = collisionFlag [⟨1, 0, 0, "safe", 1, Cell.nan, Cell.nan⟩,
                               ⟨2, 0, 0, "collision", 0, Cell.nan,
                                Cell.nan⟩]) :=
  ⟨(collision_flag_correct _).1,
   ⟨_, rfl, (collision_flag_correct _).2
     (HttpResult.response 200 (some ⟨some
        [⟨some 1, some 0, some 0, some "safe", some 1, PredField.absent⟩,
         ⟨some 2, some 0, some 0, some "collision", some 0,
          PredField.absent⟩]⟩))
     (HttpResult.response 200 (some ⟨some
        [⟨some 1, some 0, some 0, some "safe", some 1, PredField.absent⟩,
         ⟨some 2, some 0, some 0, some "collision", some 0,
          PredField.absent⟩]⟩))
     _ _ _ rfl rfl rfl⟩⟩

theorem statusDist_sum_eq (df : List Row)
    (h : ∀ r ∈ df, r.Status ∈ labels) :
    (statusDist df).sum = df.length := by
  induction df with
  | nil => rfl
  | cons r t ih =>
      have hr := h r (List.mem_cons_self r t)
      have ih' := ih (fun v hv => h v (List.mem_cons_of_mem r hv))
      simp only [statusDist, labels, colors, List.map_cons, List.map_nil,
        List.sum_cons, List.sum_nil, List.countP_cons] at ih' ⊢
      simp only [labels, colors, List.map_cons, List.map_nil,
        List.mem_cons, List.not_mem_nil, or_false] at hr
      rcases hr with h4 | h4 | h4 | h4 <;>
        simp [h4, List.length_cons] <;> omega

/-- C5: when every row's Status lies in the four-label enumeration, the
per-status bar counts are each non-negative and sum to the number of
projected rows; both bar series of the chart are this same count function,
applied to the before and to the after dataframe. -/
theorem statusDist_sums (df : List Row)
    (h : ∀ r ∈ df, r.Status ∈ labels) :
    (statusDist df).sum = df.length ∧ (∀ c ∈ statusDist df, 0 ≤ c) ∧
    (∀ (hb ha : HttpResult) (b a : Response) (dfB dfA : List Row)
        (o : Rendered),
        fetch_data hb ha = Except.ok (b, a) → to_df b = Except.ok dfB →
        to_df a = Except.ok dfA → cycle hb ha = Outcome.rendered o →
        o.dist_before = statusDist dfB ∧ o.dist_after = statusDist dfA) := by
  refine ⟨statusDist_sum_eq df h, fun c _ => Nat.zero_le c, ?_⟩
  intro hb ha b a dfB dfA o hf hdb hda hc
  simp [cycle, hf, hdb, hda] at hc
  rw [← hc]
  exact ⟨rfl, rfl⟩

/-- Witness for C5 at a two-row dataframe over the enumeration. -/
theorem statusDist_sums_witness :
    (statusDist [⟨1, 0, 0, "safe", 1, Cell.nan, Cell.nan⟩,
                 ⟨2, 0, 0, "collision", 0, Cell.nan, Cell.nan⟩]).sum
      = 2 ∧
    (∀ c ∈ statusDist [⟨1, 0, 0, "safe", 1, Cell.nan, Cell.nan⟩,
                       ⟨2, 0, 0, "collision", 0, Cell.nan, Cell.nan⟩],
       0 ≤ c) :=
  ⟨(statusDist_sums _ (by decide)).1, (statusDist_sums _ (by decide)).2.1⟩

/-- C6 counterexample: the script never inspects the HTTP status code, so
a non-2xx response (here 500) whose body is valid JSON is not treated as a
transport failure; with a well-formed body the cycle renders its charts in
full instead of showing the error state. -/
theorem C6_counterexample :
    ∃ o : Rendered,
      cycle (HttpResult.response 500 (some ⟨some
               [⟨some 1, some 0, some 0, some "safe", some 1,
                 PredField.absent⟩]⟩))
            (HttpResult.response 500 (some ⟨some
               [⟨some 1, some 0, some 0, some "safe", some 1,
                 PredField.absent⟩]⟩))
        = Outcome.rendered o :=
  ⟨_, rfl⟩

/-- C6 (amended): a raised request exception (network error or timeout) or
a body that fails to parse as JSON, on either GET, is caught and the cycle
ends in the chartless fetch-error state; each scheduled tick consumes
exactly one pair of fetch results, so there is no in-cycle retry.  The
HTTP status code, however, is never inspected. -/
theorem fetch_failure_aborts :
    (∀ hb ha : HttpResult,
        (hb = HttpResult.exn ∨ ha = HttpResult.exn ∨
         (∃ sc, hb = HttpResult.response sc none) ∨
         (∃ sc, ha = HttpResult.response sc none)) →
        ∃ e, cycle hb ha = Outcome.fetchErrorState e) ∧
    (∀ ps : List (HttpResult × HttpResult), (run ps).length = ps.length) := by
  constructor
  · intro hb ha hcase
    rcases hcase with hcase | hcase | ⟨sc, hcase⟩ | ⟨sc, hcase⟩
    · subst hcase
      exact ⟨FetchError.requestException,
             by simp [cycle, fetch_data, getJson, error_bind]⟩
    · subst hcase
      cases hgb : getJson hb with
      | error e => exact ⟨e, by simp [cycle, fetch_data, hgb, error_bind]⟩
      | ok b =>
          refine ⟨FetchError.requestException, ?_⟩
          have hf : fetch_data hb HttpResult.exn
              = Except.error FetchError.requestException := by
            simp only [fetch_data, hgb, ok_bind]
            rfl
          simp [cycle, hf]
    · subst hcase
      exact ⟨FetchError.jsonDecodeError,
             by simp [cycle, fetch_data, getJson, error_bind]⟩
    · subst hcase
      cases hgb : getJson hb with
      | error e => exact ⟨e, by simp [cycle, fetch_data, hgb, error_bind]⟩
      | ok b =>
          refine ⟨FetchError.jsonDecodeError, ?_⟩
          have hf : fetch_data hb (HttpResult.response sc none)
              = Except.error FetchError.jsonDecodeError := by
            simp only [fetch_data, hgb, ok_bind]
            rfl
          simp [cycle, hf]
  · intro ps
    induction ps with
    | nil => rfl
    | cons p t ih => simp [run, ih]

/-- Witness for the amended C6 at a timed-out before request and at a
one-tick schedule. -/
theorem fetch_failure_aborts_witness :
    (∃ e, cycle HttpResult.exn
            (HttpResult.response 200 (some ⟨none⟩))
        = Outcome.fetchErrorState e) ∧
    (run [(HttpResult.exn, HttpResult.exn)]).length = 1 :=
  ⟨fetch_failure_aborts.1 HttpResult.exn
     (HttpResult.response 200 (some ⟨none⟩)) (Or.inl rfl),
   fetch_failure_aborts.2 [(HttpResult.exn, HttpResult.exn)]⟩

/-- C7: with before-snapshot ids unique, the delta minimum-distance list
contains the pair of an id and a delta exactly when the id occurs in both
snapshots and the delta is the after dmin minus the before dmin; ids
absent from either snapshot contribute nothing. -/
theorem deltaDmin_exact (b a : List Row)
    (hnodup : (b.map Row.UAV_ID).Nodup) (i : Nat) (d : Rat) :
    (i, d) ∈ deltaDmin b a ↔
      ∃ ra ∈ a, ∃ rb ∈ b, ra.UAV_ID = i ∧ rb.UAV_ID = i ∧
        d = ra.dmin - rb.dmin := by
  constructor
  · intro hmem
    rw [deltaDmin, List.mem_filterMap] at hmem
    obtain ⟨ra, hra, hf⟩ := hmem
    cases hfind : b.find? (fun rb => rb.UAV_ID == ra.UAV_ID) with
    | none => rw [hfind] at hf; cases hf
    | some rb =>
        rw [hfind] at hf
        injection hf with hf
        have hpair : ra.UAV_ID = i ∧ ra.dmin - rb.dmin = d := by
          constructor
          · exact congrArg Prod.fst hf
          · exact congrArg Prod.snd hf
        have hrb : rb ∈ b := List.mem_of_find?_eq_some hfind
        have hid : rb.UAV_ID = ra.UAV_ID := by
          simpa using List.find?_some hfind
        exact ⟨ra, hra, rb, hrb, hpair.1, by rw [hid, hpair.1],
               hpair.2.symm⟩
  · rintro ⟨ra, hra, rb, hrb, hia, hib, hd⟩
    rw [deltaDmin, List.mem_filterMap]
    refine ⟨ra, hra, ?_⟩
    cases hfind : b.find? (fun x => x.UAV_ID == ra.UAV_ID) with
    | none =>
        exfalso
        have := List.find?_eq_none.mp hfind rb hrb
        simp [hia, hib] at this
    | some rb2 =>
        have hrb2 : rb2 ∈ b := List.mem_of_find?_eq_some hfind
        have hid2 : rb2.UAV_ID = ra.UAV_ID := by
          simpa using List.find?_some hfind
        have heq : rb2 = rb :=
          List.inj_on_of_nodup_map hnodup hrb2 hrb (by rw [hid2, hia, hib])
        rw [heq, hia, hd]

/-- Witness for C7 at the worked example of the spec: before holds id 1
with dmin 2, after holds id 1 with dmin 1.2 and id 2 with dmin 0.5; the
only delta produced is id 1 with -0.8. -/
theorem deltaDmin_exact_witness :
    (1, -(4 : Rat) / 5) ∈ deltaDmin
      [⟨1, 0, 0, "safe", 2, Cell.nan, Cell.nan⟩]
      [⟨1, 0, 0, "safe", 6 / 5, Cell.nan, Cell.nan⟩,
       ⟨2, 0, 0, "safe", 1 / 2, Cell.nan, Cell.nan⟩] :=
  (deltaDmin_exact
    [⟨1, 0, 0, "safe", 2, Cell.nan, Cell.nan⟩]
    [⟨1, 0, 0, "safe", 6 / 5, Cell.nan, Cell.nan⟩,
     ⟨2, 0, 0, "safe", 1 / 2, Cell.nan, Cell.nan⟩]
    (by simp) 1 (-(4 : Rat) / 5)).mpr
    ⟨⟨1, 0, 0, "safe", 6 / 5, Cell.nan, Cell.nan⟩, by simp,
     ⟨1, 0, 0, "safe", 2, Cell.nan, Cell.nan⟩, by simp,
     rfl, rfl, by norm_num⟩

/-- C8 counterexample: two cycles whose after snapshots sit at different
positions render maps with different centers, so the center is not a
constant independent of the fetched snapshot contents. -/
theorem C8_counterexample :
    ∃ o1 o2 : Rendered,
      cycle (HttpResult.response 200 (some ⟨some
               [⟨some 1, some 0, some 0, some "safe", some 1,
                 PredField.absent⟩]⟩))
            (HttpResult.response 200 (some ⟨some
               [⟨some 1, some 0, some 0, some "safe", some 1,
                 PredField.absent⟩]⟩))
        = Outcome.rendered o1 ∧
      cycle (HttpResult.response 200 (some ⟨some
               [⟨some 1, some 2, some 4, some "safe", some 1,
                 PredField.absent⟩]⟩))
            (HttpResult.response 200 (some ⟨some
               [⟨some 1, some 2, some 4, some "safe", some 1,
                 PredField.absent⟩]⟩))
        = Outcome.rendered o2 ∧
      o1.center ≠ o2.center := by
  refine ⟨_, _, rfl, rfl, ?_⟩
  simp [cycle, fetch_data, getJson, to_df, getKey, mapRows, rowOf,
        projPred, predTruthy, ok_bind, mapCenter, mean]

theorem sum_const_map (f : Row → Rat) (c : Rat) :
    ∀ df : List Row, (∀ r ∈ df, f r = c) →
      (df.map f).sum = (df.length : Rat) * c := by
  intro df
  induction df with
  | nil => simp
  | cons r t ih =>
      intro h
      have hr := h r (List.mem_cons_self r t)
      have ih' := ih (fun v hv => h v (List.mem_cons_of_mem r hv))
      simp [hr, ih']
      ring

/-- C8 (amended): the map center is the arithmetic mean of the after
dataframe's latitude (Y) and longitude (X) columns, so it follows the
fetched snapshot; in particular a fleet sitting at one point centers the
map on that point, and in every rendered cycle the center is this function
of the after dataframe. -/
theorem map_center_is_fleet_mean (df : List Row) (x y : Rat)
    (hne : df ≠ []) (hall : ∀ r ∈ df, r.X = x ∧ r.Y = y) :
    mapCenter df = (some y, some x) ∧
    (∀ (hb ha : HttpResult) (b a : Response) (dfA : List Row)
        (o : Rendered),
        fetch_data hb ha = Except.ok (b, a) → to_df a = Except.ok dfA →
        cycle hb ha = Outcome.rendered o → o.center = mapCenter dfA) := by
  constructor
  · have hlen : df.length ≠ 0 := fun hc => hne (List.length_eq_zero.mp hc)
    have hY : (df.map Row.Y).sum = (df.length : Rat) * y :=
      sum_const_map Row.Y y df (fun r hr => (hall r hr).2)
    have hX : (df.map Row.X).sum = (df.length : Rat) * x :=
      sum_const_map Row.X x df (fun r hr => (hall r hr).1)
    have hcast : (df.length : Rat) ≠ 0 := Nat.cast_ne_zero.mpr hlen
    simp only [mapCenter, mean, List.length_map, if_neg hlen, hY, hX]
    rw [mul_div_cancel_left₀ y hcast, mul_div_cancel_left₀ x hcast]
  · intro hb ha b a dfA o hf hda hc
    cases hdb : to_df b with
    | error e => simp [cycle, hf, hdb] at hc
    | ok dfB =>
        simp [cycle, hf, hdb, hda] at hc
        rw [← hc]

/-- Witness for the amended C8 at a one-row fleet at longitude 2,
latitude 4. -/
theorem map_center_is_fleet_mean_witness :
    mapCenter [⟨1, 2, 4, "safe", 1, Cell.nan, Cell.nan⟩]
      = (some 4, some 2) :=
  (map_center_is_fleet_mean [⟨1, 2, 4, "safe", 1, Cell.nan, Cell.nan⟩]
    2 4 (by simp)
    (by
      intro r hr
      rcases List.mem_singleton.mp hr with rfl
      exact ⟨rfl, rfl⟩)).1
